import Mathlib

/-!
Verification of the LobbyExperience Outlook add-in core against its
natural-language specification.  The JavaScript sources are shallowly
embedded: pure computations become Lean functions, the SharePoint list
becomes an explicit store value threaded through the operations, remote
calls become oracles of type `Except`, and the taskpane coordinator
becomes an explicit state machine.  Every definition is translated from
the JavaScript source files (OutlookEventService, PowerAutomateService,
SharePointService, commands, taskpane); comments cite the source
functions.
-/

/-! ## String primitives

Character-list implementations of the string operations the sources
use, chosen so that all definitions reduce by structural recursion. -/

/-- JavaScript `s.startsWith(p)` / regex anchor at the start. -/
def strStartsWith (s p : String) : Bool :=
  p.data.isPrefixOf s.data

/-- JavaScript `s.endsWith(p)` / regex anchor at the end. -/
def strEndsWith (s p : String) : Bool :=
  p.data.isSuffixOf s.data

/-- JavaScript `s.toLowerCase()` (ASCII case folding). -/
def strToLower (s : String) : String :=
  String.mk (s.data.map Char.toLower)

/-- JavaScript `email.split(sep)[0]` for a one-character separator:
the prefix before the first occurrence of the separator. -/
def strBefore (s : String) (sep : Char) : String :=
  String.mk (s.data.takeWhile (fun c => c != sep))

/-! ## Data model

An attendee / external user as the services see it: `emailAddress` and
`name` (JS uses falsy checks, so the empty string plays the role of a
missing value, matching `!attendee.emailAddress` and `user.name ||
...`). -/

structure ExternalUser where
  emailAddress : String
  name : String
deriving DecidableEq, Repr

/-- Outlook section of the configuration.  Both fields are optional in
the JS config object (`config.outlook?.internalDomains`,
`config.outlook?.excludeRooms`). -/
structure OutlookConfig where
  internalDomains : Option (List String)
  excludeRooms : Option Bool
deriving DecidableEq, Repr

/-- Application configuration as read by `filterExternalUsers`; the
whole `outlook` section may be absent (optional chaining in the JS). -/
structure AppConfig where
  outlook : Option OutlookConfig
deriving DecidableEq, Repr

/-- JavaScript `v || d` on an optional boolean: a truthy value (only
`true`) short-circuits, everything else (`false`, `undefined`) falls
through to the default. -/
def jsOrBool (v : Option Bool) (d : Bool) : Bool :=
  match v with
  | some true => true
  | some false => d
  | none => d

/-- JavaScript `v || []` on an optional list (a present array is
always truthy in JS, even when empty). -/
def jsOrList (v : Option (List String)) : List String :=
  match v with
  | some l => l
  | none => []

/-- Value of `config.outlook?.internalDomains || []` in
`OutlookEventService.filterExternalUsers`. -/
def internalDomainsOf (cfg : AppConfig) : List String :=
  jsOrList (cfg.outlook.bind (·.internalDomains))

/-- Value of `const excludeRooms = config.outlook?.excludeRooms || true`
in `OutlookEventService.filterExternalUsers` (note the JS source uses
a boolean-or here, not a nullish-coalescing operator). -/
def excludeRoomsOf (cfg : AppConfig) : Bool :=
  jsOrBool (cfg.outlook.bind (·.excludeRooms)) true

/-- True when the string starts with a decimal digit; used for the
digit part of the room-number pattern. -/
def startsWithDigit (s : String) : Bool :=
  match s.data with
  | [] => false
  | c :: _ => c.isDigit

/-- `OutlookEventService.isRoomEmail`: the room-address heuristic, a
disjunction of seven case-insensitive patterns, anchored as in the
source: "room" then at least one digit at the start, "conference",
"meeting", "boardroom", "conf-" or "resource-" at the start, or
"-room" at the end.  The caller passes an already lower-cased address,
so the patterns are written lower-case. -/
def isRoomEmail (email : String) : Bool :=
  (strStartsWith email "room" && startsWithDigit (String.mk (email.data.drop 4))) ||
  strStartsWith email "conference" ||
  strStartsWith email "meeting" ||
  strStartsWith email "boardroom" ||
  strStartsWith email "conf-" ||
  strEndsWith email "-room" ||
  strStartsWith email "resource-"

/-- Filtering predicate of `OutlookEventService.filterExternalUsers`,
applied to each attendee: reject an absent address, reject room
addresses when `excludeRooms` holds, reject internal domains
(case-insensitive suffix match on the at-sign plus domain), keep the
rest. -/
def isExternalAttendee (cfg : AppConfig) (attendee : ExternalUser) : Bool :=
  if attendee.emailAddress = "" then false
  else
    let email := strToLower attendee.emailAddress
    if excludeRoomsOf cfg && isRoomEmail email then false
    else
      let isInternal := (internalDomainsOf cfg).any fun domain =>
        strEndsWith email ("@" ++ strToLower domain)
      !isInternal

/-- `OutlookEventService.filterExternalUsers` (the classifier): keeps
exactly the attendees accepted by `isExternalAttendee`, preserving the
input order.  The JS body is `attendees.filter(...)`. -/
def filterExternalUsers (cfg : AppConfig) (attendees : List ExternalUser) :
    List ExternalUser :=
  attendees.filter (isExternalAttendee cfg)

/-- The whole body of `filterExternalUsers` sits inside a try-catch
whose handler returns the empty array; the only statement that can
throw is the configuration read.  The guarded entry point therefore
maps a failed configuration read to the empty array. -/
def filterExternalUsersGuarded (cfgResult : Except String AppConfig)
    (attendees : List ExternalUser) : List ExternalUser :=
  match cfgResult with
  | Except.ok cfg => filterExternalUsers cfg attendees
  | Except.error _ => []

/-- Whether an `Except` value is a success; used to phrase which
oracle outcomes the services treat as completed calls. -/
def exceptIsOk {E A : Type} : Except E A → Bool
  | Except.ok _ => true
  | Except.error _ => false

/-! ## SharePoint store model

The remote list is modelled as an explicit value: the list items, the
next server-assigned item id, and an instrumentation log of the REST
calls issued against the list (one entry per delete or create call),
used to state which operations a reconciliation pass performs. -/

/-- One issued store call: a DELETE of an item id or a POST creating a
record for a visitor email. -/
inductive StoreOp where
  | delete (itemId : Nat)
  | create (visitorEmail : String)
deriving DecidableEq, Repr

/-- A persisted list item, fields as the SharePoint list schema in the
repository README (`LobbyVisitors`): MeetingId, MeetingTitle,
VisitorEmail, VisitorName, StartTime, EndTime, Status, CreatedDate,
ModifiedDate, plus the server-assigned `Id`. -/
structure SPRecord where
  Id : Nat
  MeetingId : String
  MeetingTitle : String
  VisitorEmail : String
  VisitorName : String
  StartTime : Option String
  EndTime : Option String
  Status : String
  CreatedDate : Option String
  ModifiedDate : Option String
deriving DecidableEq, Repr

/-- The remote SharePoint list: items, next fresh id, call log. -/
structure SPStore where
  items : List SPRecord
  nextId : Nat
  ops : List StoreOp
deriving DecidableEq, Repr

/-- `SharePointService.getVisitorRecordsByMeetingId`: OData filter
`MeetingId eq meetingId` over the list items. -/
def getVisitorRecordsByMeetingId (s : SPStore) (meetingId : String) :
    List SPRecord :=
  s.items.filter (fun r => r.MeetingId == meetingId)

/-- Effect on the remote list of `SharePointService.deleteListItem`:
the item with the given id disappears; deleting an absent id changes
nothing (the service treats 404 as success).  The call is logged. -/
def deleteListItem (s : SPStore) (itemId : Nat) : SPStore :=
  { s with
    items := s.items.filter (fun r => r.Id != itemId)
    ops := s.ops ++ [StoreOp.delete itemId] }

/-- Field data POSTed by `SharePointService.createListItem` (all
fields of `SPRecord` except the server-assigned id). -/
structure SPItemData where
  MeetingId : String
  MeetingTitle : String
  VisitorEmail : String
  VisitorName : String
  StartTime : Option String
  EndTime : Option String
  Status : String
  CreatedDate : Option String
  ModifiedDate : Option String
deriving DecidableEq, Repr

/-- `SharePointService.createListItem`: the remote list appends a new
item with a fresh id and returns it.  The call is logged. -/
def createListItem (s : SPStore) (d : SPItemData) : SPStore × SPRecord :=
  let r : SPRecord :=
    { Id := s.nextId, MeetingId := d.MeetingId, MeetingTitle := d.MeetingTitle
      VisitorEmail := d.VisitorEmail, VisitorName := d.VisitorName
      StartTime := d.StartTime, EndTime := d.EndTime, Status := d.Status
      CreatedDate := d.CreatedDate, ModifiedDate := d.ModifiedDate }
  ({ items := s.items ++ [r], nextId := s.nextId + 1
     ops := s.ops ++ [StoreOp.create d.VisitorEmail] }, r)

/-- The record literal built inside the loop of
`SharePointService.createVisitorRecord`: status `Scheduled`, visitor
name falling back to the local part of the email when `user.name` is
falsy, creation and modification dates stamped with the current time
(`now`; timestamps are modelled as their serialized strings, so
`formatDateTime` is the identity on them). -/
def visitorItemData (meetingId meetingTitle : String) (user : ExternalUser)
    (startTime endTime : Option String) (now : String) : SPItemData :=
  { MeetingId := meetingId, MeetingTitle := meetingTitle
    VisitorEmail := user.emailAddress
    VisitorName := if user.name = "" then strBefore user.emailAddress '@' else user.name
    StartTime := startTime, EndTime := endTime, Status := "Scheduled"
    CreatedDate := some now, ModifiedDate := some now }

/-- `SharePointService.createVisitorRecord`: one `createListItem` call
per external user, in list order, collecting the created records. -/
def createVisitorRecord (s : SPStore) (meetingId meetingTitle : String)
    (externalUsers : List ExternalUser) (startTime endTime : Option String)
    (now : String) : SPStore × List SPRecord :=
  match externalUsers with
  | [] => (s, [])
  | u :: rest =>
    let p := createListItem s (visitorItemData meetingId meetingTitle u startTime endTime now)
    let q := createVisitorRecord p.1 meetingId meetingTitle rest startTime endTime now
    (q.1, p.2 :: q.2)

/-- `SharePointService.updateVisitorRecords`: fetch the existing
records of the meeting, delete every one of them, then create one
fresh record per external user (none when the list is empty). -/
def updateVisitorRecords (s : SPStore) (meetingId meetingTitle : String)
    (externalUsers : List ExternalUser) (startTime endTime : Option String)
    (now : String) : SPStore × List SPRecord :=
  let existing := getVisitorRecordsByMeetingId s meetingId
  let s1 := existing.foldl (fun acc r => deleteListItem acc r.Id) s
  if externalUsers.length > 0 then
    createVisitorRecord s1 meetingId meetingTitle externalUsers startTime endTime now
  else
    (s1, [])

/-- `SharePointService.deleteVisitorRecords`: delete every record of
the meeting and return how many there were. -/
def deleteVisitorRecords (s : SPStore) (meetingId : String) : SPStore × Nat :=
  let existing := getVisitorRecordsByMeetingId s meetingId
  (existing.foldl (fun acc r => deleteListItem acc r.Id) s, existing.length)

/-! ## Retry with exponential backoff

Both services construct `retryConfig` in their constructors and wrap
remote calls in `executeWithRetry(operation, retryCount = 0)`.  The
operation is modelled as an oracle giving the outcome of each attempt
(indexed by the `retryCount` at which it runs); the embedding returns
the final outcome together with the list of delays waited. -/

structure RetryConfig where
  maxRetries : Nat
  retryDelay : Nat
  backoffMultiplier : Nat
deriving DecidableEq, Repr

/-- `SharePointService.retryConfig`. -/
def sharePointRetryConfig : RetryConfig :=
  { maxRetries := 3, retryDelay := 1000, backoffMultiplier := 2 }

/-- `PowerAutomateService.retryConfig`. -/
def powerAutomateRetryConfig : RetryConfig :=
  { maxRetries := 3, retryDelay := 2000, backoffMultiplier := 2 }

/-- `executeWithRetry` (same body in both services): run the
operation; on failure, while `retryCount < maxRetries`, wait
`retryDelay * backoffMultiplier ^ retryCount` and recurse with
`retryCount + 1`; once retries are exhausted rethrow the last error. -/
def executeWithRetry {E A : Type} (cfg : RetryConfig) (op : Nat → Except E A)
    (retryCount : Nat) : Except E A × List Nat :=
  match op retryCount with
  | Except.ok a => (Except.ok a, [])
  | Except.error e =>
    if h : retryCount < cfg.maxRetries then
      let delay := cfg.retryDelay * cfg.backoffMultiplier ^ retryCount
      let r := executeWithRetry cfg op (retryCount + 1)
      (r.1, delay :: r.2)
    else
      (Except.error e, [])
termination_by cfg.maxRetries - retryCount
decreasing_by omega

/-! ## Store delete call (idempotent remove) -/

/-- Status line of the remote response to one REST call. -/
structure HttpResponse where
  ok : Bool
  status : Nat
deriving DecidableEq, Repr

/-- One attempt inside `SharePointService.deleteListItem`: the fetch
throws on `!response.ok && response.status !== 404` and otherwise
returns `response.ok` (so a 404 returns normally). -/
def deleteItemAttempt (response : HttpResponse) : Except String Bool :=
  if !response.ok && response.status != 404 then
    Except.error ("HTTP error! status: " ++ toString response.status)
  else
    Except.ok response.ok

/-- `SharePointService.deleteListItem` as called by the service: the
attempt wrapped in `executeWithRetry` with the SharePoint retry
configuration, against the per-attempt remote responses. -/
def deleteListItemCall (responses : Nat → HttpResponse) :
    Except String Bool × List Nat :=
  executeWithRetry sharePointRetryConfig (fun k => deleteItemAttempt (responses k)) 0

/-! ## Notification batch -/

/-- One entry of the `notifications` array built by
`PowerAutomateService.sendVisitorNotification`. -/
structure NotificationDetail where
  email : String
  success : Bool
  notificationId : Option String
  error : Option String
deriving DecidableEq, Repr

/-- Return value of `PowerAutomateService.sendVisitorNotification`.
The early return for an empty user list carries only `success` and
`notificationsSent`, hence the optional fields. -/
structure NotificationResult where
  success : Bool
  notificationsSent : Nat
  failures : Option Nat
  details : Option (List NotificationDetail)
deriving DecidableEq, Repr

/-- Body of the per-user try-catch in `sendVisitorNotification`: a
successful `sendSingleNotification` yields a success entry with the
notification id, a thrown error yields a failure entry with the error
message.  The per-user send (including its own retry loop) is the
oracle `send`. -/
def notificationDetailFor (send : ExternalUser → Except String String)
    (user : ExternalUser) : NotificationDetail :=
  match send user with
  | Except.ok nid =>
    { email := user.emailAddress, success := true
      notificationId := some nid, error := none }
  | Except.error e =>
    { email := user.emailAddress, success := false
      notificationId := none, error := some e }

/-- `PowerAutomateService.sendVisitorNotification`: empty input short
circuits; otherwise every user is attempted independently (the loop
catches each failure and records it), and the aggregate reports the
success and failure counts with `success` exactly when no entry
failed. -/
def sendVisitorNotification (send : ExternalUser → Except String String)
    (externalUsers : List ExternalUser) : NotificationResult :=
  if externalUsers.length = 0 then
    { success := true, notificationsSent := 0, failures := none, details := none }
  else
    let notifications := externalUsers.map (notificationDetailFor send)
    let successCount := (notifications.filter (fun n => n.success)).length
    let failureCount := (notifications.filter (fun n => !n.success)).length
    { success := failureCount == 0
      notificationsSent := successCount
      failures := some failureCount
      details := some notifications }

/-! ## Taskpane coordinator and trigger pipeline

`TaskpaneApp.processVisitors` guards reentry with the single
`isProcessing` flag: a call made while a run is in flight shows a
warning and returns, and the flag is cleared in the `finally` block.
The observable control behaviour is a state machine over trigger
events (a change notification calling `processVisitors`) and
completion events (the `finally` block of the running call). -/

inductive CoordEvent where
  | trigger
  | complete
deriving DecidableEq, Repr

/-- Coordinator state: the `isProcessing` flag plus a history counter
of how many reconciliation cycles were ever started. -/
structure CoordState where
  isProcessing : Bool
  cyclesStarted : Nat
deriving DecidableEq, Repr

/-- One step of `TaskpaneApp.processVisitors` control flow: a trigger
while `isProcessing` returns immediately (nothing is recorded, no
rerun is queued); a trigger while idle starts a cycle; completion
clears the flag. -/
def coordStep (st : CoordState) (e : CoordEvent) : CoordState :=
  match e with
  | CoordEvent.trigger =>
    if st.isProcessing then st
    else { isProcessing := true, cyclesStarted := st.cyclesStarted + 1 }
  | CoordEvent.complete => { st with isProcessing := false }

/-- Run of the coordinator over a sequence of events. -/
def coordRun (st : CoordState) (events : List CoordEvent) : CoordState :=
  events.foldl coordStep st

/-- Meeting data extracted by `OutlookEventService.extractEventData`
(the fields `processVisitors` and `manualSync` consume). -/
structure MeetingData where
  meetingId : String
  subject : String
  startTime : Option String
  endTime : Option String
  externalUsers : List ExternalUser
deriving DecidableEq, Repr

/-- Store effect of one `TaskpaneApp.processVisitors` run: nothing
when `externalUsers` is empty (the early warning return); a full
delete-and-recreate via `updateVisitorRecords` for the `manual`,
`created` and `recipients_changed` change types; a full delete via
`deleteVisitorRecords` for `deleted`; and no store call at all for the
remaining change types (`subject_changed`, `time_changed`,
`appointment_changed` fall through both branches). -/
def processVisitorsStore (s : SPStore) (data : MeetingData)
    (changeType : String) (now : String) : SPStore :=
  if data.externalUsers.length = 0 then s
  else if changeType == "manual" || changeType == "created"
      || changeType == "recipients_changed" then
    (updateVisitorRecords s data.meetingId data.subject data.externalUsers
      data.startTime data.endTime now).1
  else if changeType == "deleted" then
    (deleteVisitorRecords s data.meetingId).1
  else s

/-- Store effect of `TaskpaneApp.handleOutlookEvent`: the handler only
invokes `processVisitors` when the event data carries at least one
external user (the same guard also sits upstream in every
`OutlookEventService` change handler, e.g.
`handleRecipientsChanged`). -/
def handleOutlookEventStore (s : SPStore) (eventType : String)
    (eventData : MeetingData) (now : String) : SPStore :=
  if eventData.externalUsers.length > 0 then
    processVisitorsStore s eventData eventType now
  else s

/-- Store effect of the `manualSync` ribbon command: update when there
are external users; otherwise delete all records of the meeting when
any exist; otherwise do nothing. -/
def manualSyncStore (s : SPStore) (meetingData : MeetingData) (now : String) :
    SPStore :=
  let existingRecords := getVisitorRecordsByMeetingId s meetingData.meetingId
  if meetingData.externalUsers.length > 0 then
    (updateVisitorRecords s meetingData.meetingId meetingData.subject
      meetingData.externalUsers meetingData.startTime meetingData.endTime now).1
  else if existingRecords.length > 0 then
    (deleteVisitorRecords s meetingData.meetingId).1
  else s

/-! ## Helper lemmas about the store operations -/

lemma foldl_deleteListItem_items (rs : List SPRecord) (s : SPStore) :
    (rs.foldl (fun acc r => deleteListItem acc r.Id) s).items
      = s.items.filter (fun x => !(rs.any (fun r => r.Id == x.Id))) := by
  induction rs generalizing s with
  | nil => simp
  | cons r rs ih =>
    rw [List.foldl_cons, ih]
    simp only [deleteListItem]
    rw [List.filter_filter]
    congr 1
    funext x
    by_cases h : r.Id = x.Id
    · simp [h, bne]
    · have hb1 : (r.Id == x.Id) = false := beq_eq_false_iff_ne.mpr h
      have hb2 : (x.Id == r.Id) = false := beq_eq_false_iff_ne.mpr (Ne.symm h)
      simp [hb1, hb2]
      exact fun _ => Ne.symm h

lemma foldl_deleteListItem_ops (rs : List SPRecord) (s : SPStore) :
    (rs.foldl (fun acc r => deleteListItem acc r.Id) s).ops
      = s.ops ++ rs.map (fun r => StoreOp.delete r.Id) := by
  induction rs generalizing s with
  | nil => simp
  | cons r rs ih =>
    rw [List.foldl_cons, ih]
    simp [deleteListItem]

lemma getByMeeting_after_deleteAll (s : SPStore) (mid : String) :
    getVisitorRecordsByMeetingId
      ((getVisitorRecordsByMeetingId s mid).foldl
        (fun acc r => deleteListItem acc r.Id) s) mid = [] := by
  unfold getVisitorRecordsByMeetingId
  rw [foldl_deleteListItem_items, List.filter_filter]
  rw [List.filter_eq_nil_iff]
  intro x hx
  by_cases hm : x.MeetingId = mid
  · have hxe : x ∈ s.items.filter (fun r => r.MeetingId == mid) :=
      List.mem_filter.mpr ⟨hx, by simp [hm]⟩
    have hany : (s.items.filter (fun r => r.MeetingId == mid)).any
        (fun r => r.Id == x.Id) = true :=
      List.any_eq_true.mpr ⟨x, hxe, by simp⟩
    simp [hany]
  · simp [hm]

lemma createVisitorRecord_spec (mid mtitle : String) (st et : Option String)
    (now : String) (users : List ExternalUser) :
    ∀ s : SPStore,
      (createVisitorRecord s mid mtitle users st et now).1.items
          = s.items ++ (createVisitorRecord s mid mtitle users st et now).2
      ∧ (createVisitorRecord s mid mtitle users st et now).1.ops
          = s.ops ++ users.map (fun u => StoreOp.create u.emailAddress)
      ∧ (createVisitorRecord s mid mtitle users st et now).2.map
            (fun r => r.VisitorEmail)
          = users.map (fun u => u.emailAddress)
      ∧ ∀ r ∈ (createVisitorRecord s mid mtitle users st et now).2,
          r.MeetingId = mid ∧ r.Status = "Scheduled" := by
  induction users with
  | nil => intro s; simp [createVisitorRecord]
  | cons u rest ih =>
    intro s
    obtain ⟨h1, h2, h3, h4⟩ :=
      ih (createListItem s (visitorItemData mid mtitle u st et now)).1
    refine ⟨?_, ?_, ?_, ?_⟩
    · simp only [createVisitorRecord]
      rw [h1]
      simp [createListItem]
    · simp only [createVisitorRecord]
      rw [h2]
      simp [createListItem, visitorItemData]
    · simp only [createVisitorRecord, List.map_cons]
      rw [h3]
      simp [createListItem, visitorItemData]
    · intro r hr
      simp only [createVisitorRecord, List.mem_cons] at hr
      rcases hr with hr | hr
      · subst hr; simp [createListItem, visitorItemData]
      · exact h4 r hr

lemma updateVisitorRecords_getByMeeting (s : SPStore) (mid mtitle : String)
    (users : List ExternalUser) (st et : Option String) (now : String) :
    getVisitorRecordsByMeetingId
        (updateVisitorRecords s mid mtitle users st et now).1 mid
      = (updateVisitorRecords s mid mtitle users st et now).2 := by
  unfold updateVisitorRecords
  by_cases h : users.length > 0
  · simp only [h, if_pos]
    obtain ⟨h1, _, _, h4⟩ := createVisitorRecord_spec mid mtitle st et now users
      ((getVisitorRecordsByMeetingId s mid).foldl
        (fun acc r => deleteListItem acc r.Id) s)
    unfold getVisitorRecordsByMeetingId at *
    rw [h1, List.filter_append]
    have hnil := getByMeeting_after_deleteAll s mid
    unfold getVisitorRecordsByMeetingId at hnil
    rw [hnil, List.nil_append]
    apply List.filter_eq_self.mpr
    intro r hr
    simp [(h4 r hr).1]
  · simp only [h, if_neg]
    exact getByMeeting_after_deleteAll s mid

lemma updateVisitorRecords_ops (s : SPStore) (mid mtitle : String)
    (users : List ExternalUser) (st et : Option String) (now : String) :
    (updateVisitorRecords s mid mtitle users st et now).1.ops
      = s.ops
          ++ (getVisitorRecordsByMeetingId s mid).map
              (fun r => StoreOp.delete r.Id)
          ++ users.map (fun u => StoreOp.create u.emailAddress) := by
  unfold updateVisitorRecords
  by_cases h : users.length > 0
  · simp only [h, if_pos]
    obtain ⟨_, h2, _, _⟩ := createVisitorRecord_spec mid mtitle st et now users
      ((getVisitorRecordsByMeetingId s mid).foldl
        (fun acc r => deleteListItem acc r.Id) s)
    rw [h2, foldl_deleteListItem_ops]
  · have hu : users = [] := List.length_eq_zero.mp (by omega)
    subst hu
    simp [foldl_deleteListItem_ops]

/-! ## Helper lemmas about the retry loop -/

lemma retryAllFail_eq {E A : Type} (cfg : RetryConfig) (err : Nat → E) :
    ∀ n j, cfg.maxRetries - j = n →
      executeWithRetry (A := A) cfg (fun k => Except.error (err k)) j
        = (Except.error (err (max cfg.maxRetries j)),
           (List.range' j (cfg.maxRetries - j)).map
             (fun i => cfg.retryDelay * cfg.backoffMultiplier ^ i)) := by
  intro n
  induction n with
  | zero =>
    intro j hj
    rw [executeWithRetry]
    simp only
    rw [dif_neg (by omega : ¬ j < cfg.maxRetries)]
    have hmax : max cfg.maxRetries j = j := Nat.max_eq_right (by omega)
    simp [hj, hmax]
  | succ n ih =>
    intro j hj
    have hlt : j < cfg.maxRetries := by omega
    rw [executeWithRetry]
    simp only
    rw [dif_pos hlt]
    rw [ih (j + 1) (by omega)]
    have h1 : max cfg.maxRetries (j + 1) = cfg.maxRetries :=
      Nat.max_eq_left (by omega)
    have h2 : max cfg.maxRetries j = cfg.maxRetries :=
      Nat.max_eq_left (by omega)
    have h3 : cfg.maxRetries - j = (cfg.maxRetries - (j + 1)) + 1 := by omega
    rw [h1, h2, h3, List.range'_succ]
    simp

lemma retryDelays_length_le {E A : Type} (cfg : RetryConfig)
    (op : Nat → Except E A) :
    ∀ n j, cfg.maxRetries - j = n →
      (executeWithRetry cfg op j).2.length ≤ cfg.maxRetries - j := by
  intro n
  induction n with
  | zero =>
    intro j hj
    rw [executeWithRetry]
    cases hop : op j with
    | ok a => simp
    | error e =>
      simp only
      rw [dif_neg (by omega : ¬ j < cfg.maxRetries)]
      simp
  | succ n ih =>
    intro j hj
    rw [executeWithRetry]
    cases hop : op j with
    | ok a => simp
    | error e =>
      have hlt : j < cfg.maxRetries := by omega
      simp only
      rw [dif_pos hlt]
      have hrec := ih (j + 1) (by omega)
      simp only [List.length_cons]
      omega

/-! ## Helper lemmas about reconciliation results, classification and
notifications -/

lemma updateVisitorRecords_records_spec (s : SPStore) (mid mtitle : String)
    (users : List ExternalUser) (st et : Option String) (now : String) :
    (updateVisitorRecords s mid mtitle users st et now).2.map
        (fun r => r.VisitorEmail)
      = users.map (fun u => u.emailAddress)
    ∧ ∀ r ∈ (updateVisitorRecords s mid mtitle users st et now).2,
        r.MeetingId = mid ∧ r.Status = "Scheduled" := by
  unfold updateVisitorRecords
  by_cases h : users.length > 0
  · simp only [h, if_pos]
    obtain ⟨_, _, h3, h4⟩ := createVisitorRecord_spec mid mtitle st et now users
      ((getVisitorRecordsByMeetingId s mid).foldl
        (fun acc r => deleteListItem acc r.Id) s)
    exact ⟨h3, h4⟩
  · have hu : users = [] := List.length_eq_zero.mp (by omega)
    subst hu
    simp

lemma excludeRoomsOf_always_true (cfg : AppConfig) : excludeRoomsOf cfg = true := by
  cases hv : cfg.outlook.bind (·.excludeRooms) with
  | none => simp [excludeRoomsOf, jsOrBool, hv]
  | some b => cases b <;> simp [excludeRoomsOf, jsOrBool, hv]

lemma notificationDetailFor_success (send : ExternalUser → Except String String)
    (u : ExternalUser) :
    (notificationDetailFor send u).success = exceptIsOk (send u) := by
  unfold notificationDetailFor
  cases h : send u <;> simp [exceptIsOk]

lemma sendVisitorNotification_filter_counts
    (send : ExternalUser → Except String String) (users : List ExternalUser) :
    ((users.map (notificationDetailFor send)).filter (fun n => !n.success)).length
        = users.countP (fun u => !exceptIsOk (send u))
    ∧ ((users.map (notificationDetailFor send)).filter (fun n => n.success)).length
        = users.countP (fun u => exceptIsOk (send u)) := by
  constructor
  · rw [← List.countP_eq_length_filter, List.countP_map]
    congr 1
    funext u
    simp [notificationDetailFor_success]
  · rw [← List.countP_eq_length_filter, List.countP_map]
    congr 1
    funext u
    simp [notificationDetailFor_success]

/-! ## Claim theorems -/

/-- Claim C3 counterexample: two triggers arriving while a run is in
flight, followed by the completion of that run, leave exactly one
started cycle in total — not the two cycles (initial plus coalesced
rerun) the claim requires, because `processVisitors` drops triggers
seen while `isProcessing` is set. -/
theorem claimC3_counterexample :
    coordRun ⟨false, 0⟩
        [CoordEvent.trigger, CoordEvent.trigger, CoordEvent.complete]
      = ⟨false, 1⟩
    ∧ (coordRun ⟨false, 0⟩
        [CoordEvent.trigger, CoordEvent.trigger, CoordEvent.complete]).cyclesStarted
      ≠ 2 := by
  constructor <;> decide

/-- Claim C3 (amended): a change trigger that arrives while a
reconciliation is running is dropped outright — the coordinator state
is left unchanged, so no second concurrent cycle starts, but no
pending rerun is recorded either, and after the running cycle
completes zero additional cycles have been started (the
trigger-trigger-complete burst starts exactly one cycle). -/
theorem claimC3_amended :
    (∀ st : CoordState, st.isProcessing = true →
        coordStep st CoordEvent.trigger = st)
    ∧ coordRun ⟨false, 0⟩
        [CoordEvent.trigger, CoordEvent.trigger, CoordEvent.complete]
      = ⟨false, 1⟩ := by
  constructor
  · intro st h
    simp [coordStep, h]
  · decide

/-- Claim C3 witness: the drop rule applied at a concrete running
state. -/
theorem claimC3_amended_witness :
    coordStep ⟨true, 5⟩ CoordEvent.trigger = ⟨true, 5⟩ :=
  claimC3_amended.1 ⟨true, 5⟩ rfl

/-- Claim C4 counterexample: two attendees whose emails are equal up
to case both survive `filterExternalUsers`, so the classifier does not
deduplicate by lowercase email. -/
theorem claimC4_counterexample :
    filterExternalUsers ⟨some ⟨some [], some true⟩⟩
        [⟨"a@ext.com", "A"⟩, ⟨"A@EXT.COM", "B"⟩]
      = [⟨"a@ext.com", "A"⟩, ⟨"A@EXT.COM", "B"⟩]
    ∧ strToLower "a@ext.com" = strToLower "A@EXT.COM" := by
  constructor <;> decide

/-- Claim C4 (amended): the classifier performs no deduplication at
all — its output is a sublist of the input (each kept entry appears
verbatim, in input order, with its own display name), and every
external occurrence of a lowercase email is kept with its input
multiplicity. -/
theorem claimC4_amended (cfg : AppConfig) (attendees : List ExternalUser)
    (e : String) :
    List.Sublist (filterExternalUsers cfg attendees) attendees
    ∧ (filterExternalUsers cfg attendees).countP
          (fun a => strToLower a.emailAddress == e)
        = attendees.countP
          (fun a => isExternalAttendee cfg a && (strToLower a.emailAddress == e)) := by
  constructor
  · exact List.filter_sublist _
  · rw [filterExternalUsers, List.countP_filter]
    congr 1
    funext a
    rw [Bool.and_comm]

/-- Claim C5: the effective room-exclusion flag is computed as
`config.outlook?.excludeRooms || true`, which is `true` no matter what
the configuration says; a room-pattern address is therefore excluded
even when `excludeRooms` is configured `false`, contradicting the
configurable exclusion the claim (and the configuration read itself)
intends. -/
theorem claimC5_code_bug :
    excludeRoomsOf ⟨some ⟨some [], some false⟩⟩ = true
    ∧ filterExternalUsers ⟨some ⟨some [], some false⟩⟩
        [⟨"room1@ext.com", "Room One"⟩] = []
    ∧ filterExternalUsers ⟨some ⟨some [], some true⟩⟩
        [⟨"room1@ext.com", "Room One"⟩] = []
    ∧ ∀ cfg : AppConfig, excludeRoomsOf cfg = true := by
  refine ⟨by decide, by decide, by decide, excludeRoomsOf_always_true⟩

/-- Claim C10: the guarded classifier is total, never emits an
attendee with an absent (empty) address, only emits attendees of the
input list, and collapses to the empty array when the configuration
read fails. -/
theorem claimC10 (cfgResult : Except String AppConfig)
    (attendees : List ExternalUser) :
    (∀ a ∈ filterExternalUsersGuarded cfgResult attendees, a.emailAddress ≠ "")
    ∧ (∀ a ∈ filterExternalUsersGuarded cfgResult attendees, a ∈ attendees)
    ∧ (∀ e, cfgResult = Except.error e →
        filterExternalUsersGuarded cfgResult attendees = []) := by
  refine ⟨?_, ?_, ?_⟩
  · intro a ha
    cases cfgResult with
    | error e => simp [filterExternalUsersGuarded] at ha
    | ok cfg =>
      simp only [filterExternalUsersGuarded, filterExternalUsers] at ha
      have hacc := (List.mem_filter.mp ha).2
      intro hemail
      rw [isExternalAttendee, if_pos hemail] at hacc
      exact absurd hacc (by simp)
  · intro a ha
    cases cfgResult with
    | error e => simp [filterExternalUsersGuarded] at ha
    | ok cfg =>
      simp only [filterExternalUsersGuarded, filterExternalUsers] at ha
      exact (List.mem_filter.mp ha).1
  · intro e he
    rw [he]
    rfl

/-- Claim C10 witness: the membership facts at a concrete classifier
run and the empty result on a failed configuration read. -/
theorem claimC10_witness :
    (⟨"a@ext.com", "A"⟩ : ExternalUser).emailAddress ≠ ""
    ∧ filterExternalUsersGuarded (Except.error "boom")
        [⟨"a@ext.com", "A"⟩] = [] :=
  ⟨(claimC10 (Except.ok ⟨some ⟨some [], some true⟩⟩) [⟨"a@ext.com", "A"⟩]).1
      ⟨"a@ext.com", "A"⟩ (by decide),
   (claimC10 (Except.error "boom") [⟨"a@ext.com", "A"⟩]).2.2 "boom" rfl⟩

/-- Claim C7: `sendVisitorNotification` is partial-failure tolerant —
the per-participant entry list is a pointwise map of each user's own
send outcome (so no failure aborts or skips another participant), the
sent and failed counts aggregate those outcomes, and the aggregate
`success` flag is true exactly when zero per-participant failures
occurred. -/
theorem claimC7 (send : ExternalUser → Except String String)
    (externalUsers : List ExternalUser) :
    ((sendVisitorNotification send externalUsers).success = true
        ↔ externalUsers.countP (fun u => !exceptIsOk (send u)) = 0)
    ∧ (sendVisitorNotification send externalUsers).notificationsSent
        = externalUsers.countP (fun u => exceptIsOk (send u))
    ∧ (externalUsers ≠ [] →
        (sendVisitorNotification send externalUsers).details
            = some (externalUsers.map (notificationDetailFor send))
        ∧ (sendVisitorNotification send externalUsers).failures
            = some (externalUsers.countP (fun u => !exceptIsOk (send u)))) := by
  by_cases hlen : externalUsers.length = 0
  · have hu : externalUsers = [] := List.length_eq_zero.mp hlen
    subst hu
    refine ⟨by simp [sendVisitorNotification], by simp [sendVisitorNotification], ?_⟩
    intro h
    exact absurd rfl h
  · obtain ⟨hfail, hsucc⟩ :=
      sendVisitorNotification_filter_counts send externalUsers
    refine ⟨?_, ?_, ?_⟩
    · simp only [sendVisitorNotification, hlen, if_neg, if_false]
      rw [hfail]
      simp
    · simp only [sendVisitorNotification, hlen, if_neg, if_false]
      exact hsucc
    · intro _
      constructor
      · simp only [sendVisitorNotification, hlen, if_neg, if_false]
      · simp only [sendVisitorNotification, hlen, if_neg, if_false]
        rw [hfail]

/-- Claim C7 witness: with the middle of three participants failing,
the other two are still delivered, all three get entries, and the
aggregate reports one failure. -/
theorem claimC7_witness :
    (sendVisitorNotification
        (fun u => if u.emailAddress == "b@x.com"
          then Except.error "boom" else Except.ok "nid")
        [⟨"a@x.com", "A"⟩, ⟨"b@x.com", "B"⟩, ⟨"c@x.com", "C"⟩]).details
      = some [⟨"a@x.com", true, some "nid", none⟩,
              ⟨"b@x.com", false, none, some "boom"⟩,
              ⟨"c@x.com", true, some "nid", none⟩] :=
  (((claimC7
      (fun u => if u.emailAddress == "b@x.com"
        then Except.error "boom" else Except.ok "nid")
      [⟨"a@x.com", "A"⟩, ⟨"b@x.com", "B"⟩, ⟨"c@x.com", "C"⟩]).2.2
    (by decide)).1).trans (by decide)

/-- Claim C8: the delete call is idempotent with respect to a missing
target — a 404 response returns normally (no error raised), while any
other non-success status raises an error; through the full retried
call a first-attempt 404 answer yields a normal return with no retry
delay. -/
theorem claimC8 (response : HttpResponse) :
    (response.ok = false → response.status = 404 →
        deleteItemAttempt response = Except.ok false)
    ∧ (response.ok = false → response.status ≠ 404 →
        deleteItemAttempt response
          = Except.error ("HTTP error! status: " ++ toString response.status))
    ∧ (∀ responses : Nat → HttpResponse,
        (responses 0).ok = false → (responses 0).status = 404 →
        deleteListItemCall responses = (Except.ok false, [])) := by
  refine ⟨?_, ?_, ?_⟩
  · intro h1 h2
    simp [deleteItemAttempt, h1, h2]
  · intro h1 h2
    simp [deleteItemAttempt, h1, h2]
  · intro responses h1 h2
    unfold deleteListItemCall
    rw [executeWithRetry]
    simp [deleteItemAttempt, h1, h2]

/-- Claim C8 witness: the 404 and non-404 cases at concrete
responses. -/
theorem claimC8_witness :
    deleteItemAttempt ⟨false, 404⟩ = Except.ok false
    ∧ deleteItemAttempt ⟨false, 500⟩
        = Except.error ("HTTP error! status: " ++ toString 500)
    ∧ deleteListItemCall (fun _ => ⟨false, 404⟩) = (Except.ok false, []) :=
  ⟨(claimC8 ⟨false, 404⟩).1 rfl rfl,
   (claimC8 ⟨false, 500⟩).2.1 rfl (by decide),
   (claimC8 ⟨false, 404⟩).2.2 (fun _ => ⟨false, 404⟩) rfl rfl⟩

/-- Claim C1 counterexample: when the snapshot contains the same
external email twice, classification keeps both occurrences and the
reconciliation pass creates two `Scheduled` records for the single
distinct email, so the store is not 1:1 by visitor email. -/
theorem claimC1_counterexample :
    (filterExternalUsers ⟨some ⟨some [], some true⟩⟩
        [⟨"a@ext.com", "A"⟩, ⟨"a@ext.com", "A2"⟩]).map (fun u => u.emailAddress)
      = ["a@ext.com", "a@ext.com"]
    ∧ ((getVisitorRecordsByMeetingId
          (updateVisitorRecords ⟨[], 1, []⟩ "m1" "Sync"
            (filterExternalUsers ⟨some ⟨some [], some true⟩⟩
              [⟨"a@ext.com", "A"⟩, ⟨"a@ext.com", "A2"⟩]) none none "t0").1
          "m1").filter
          (fun r => r.Status == "Scheduled" && r.VisitorEmail == "a@ext.com")).length
      = 2 := by
  constructor <;> decide

/-- Claim C1 (amended): after `updateVisitorRecords` the store holds
exactly the freshly created records for that meeting — one `Scheduled`
record per entry of the classification output, in order, with
matching emails; when the classified emails are pairwise distinct
(no duplicate external email in the snapshot) this gives exactly one
`Scheduled` record per distinct external email. -/
theorem claimC1_amended (s : SPStore) (cfg : AppConfig)
    (attendees : List ExternalUser) (mid mtitle : String)
    (st et : Option String) (now : String) :
    getVisitorRecordsByMeetingId
        (updateVisitorRecords s mid mtitle
          (filterExternalUsers cfg attendees) st et now).1 mid
      = (updateVisitorRecords s mid mtitle
          (filterExternalUsers cfg attendees) st et now).2
    ∧ (updateVisitorRecords s mid mtitle
          (filterExternalUsers cfg attendees) st et now).2.map
          (fun r => r.VisitorEmail)
        = (filterExternalUsers cfg attendees).map (fun u => u.emailAddress)
    ∧ (∀ r ∈ (updateVisitorRecords s mid mtitle
          (filterExternalUsers cfg attendees) st et now).2,
        r.Status = "Scheduled")
    ∧ (((filterExternalUsers cfg attendees).map (fun u => u.emailAddress)).Nodup →
        ∀ e ∈ (filterExternalUsers cfg attendees).map (fun u => u.emailAddress),
          ((getVisitorRecordsByMeetingId
              (updateVisitorRecords s mid mtitle
                (filterExternalUsers cfg attendees) st et now).1 mid).filter
              (fun r => r.Status == "Scheduled" && r.VisitorEmail == e)).length
            = 1) := by
  obtain ⟨hmap, hfields⟩ := updateVisitorRecords_records_spec s mid mtitle
    (filterExternalUsers cfg attendees) st et now
  have hget := updateVisitorRecords_getByMeeting s mid mtitle
    (filterExternalUsers cfg attendees) st et now
  refine ⟨hget, hmap, fun r hr => (hfields r hr).2, ?_⟩
  intro hnd e he
  rw [hget]
  have hcong : (updateVisitorRecords s mid mtitle
        (filterExternalUsers cfg attendees) st et now).2.filter
        (fun r => r.Status == "Scheduled" && r.VisitorEmail == e)
      = (updateVisitorRecords s mid mtitle
          (filterExternalUsers cfg attendees) st et now).2.filter
          (fun r => r.VisitorEmail == e) := by
    apply List.filter_congr
    intro r hr
    rw [(hfields r hr).2]
    simp
  rw [hcong, ← List.countP_eq_length_filter]
  have hcount : (updateVisitorRecords s mid mtitle
        (filterExternalUsers cfg attendees) st et now).2.countP
          (fun r => r.VisitorEmail == e)
      = ((updateVisitorRecords s mid mtitle
          (filterExternalUsers cfg attendees) st et now).2.map
          (fun r => r.VisitorEmail)).countP (fun x => x == e) :=
    (List.countP_map (fun x => x == e) (fun r : SPRecord => r.VisitorEmail) _).symm
  rw [hcount, hmap]
  have hone := List.count_eq_one_of_mem hnd he
  simpa [List.count] using hone

/-- Claim C1 witness: a concrete duplicate-free snapshot yields
exactly one Scheduled record for its one distinct external email. -/
theorem claimC1_amended_witness :
    ((getVisitorRecordsByMeetingId
        (updateVisitorRecords ⟨[], 1, []⟩ "m1" "Standup"
          (filterExternalUsers ⟨some ⟨some ["internal.com"], some true⟩⟩
            [⟨"a@ext.com", "A"⟩, ⟨"b@internal.com", "B"⟩]) none none "t0").1
        "m1").filter
        (fun r => r.Status == "Scheduled" && r.VisitorEmail == "a@ext.com")).length
      = 1 :=
  (claimC1_amended ⟨[], 1, []⟩ ⟨some ⟨some ["internal.com"], some true⟩⟩
      [⟨"a@ext.com", "A"⟩, ⟨"b@internal.com", "B"⟩] "m1" "Standup"
      none none "t0").2.2.2 (by decide) "a@ext.com" (by decide)

/-- Claim C2 counterexample: with existing records for a@ext.com and
c@ext.com and a wanted set of a@ext.com and d@ext.com, the pass issues
two deletes and two creates — in particular it deletes and recreates
a@ext.com, which is present in both sets, instead of the minimal one
delete (c) and one create (d). -/
theorem claimC2_counterexample :
    (updateVisitorRecords
        ⟨[⟨1, "m1", "T", "a@ext.com", "A", none, none, "Scheduled", none, none⟩,
          ⟨2, "m1", "T", "c@ext.com", "C", none, none, "Scheduled", none, none⟩],
         3, []⟩
        "m1" "T" [⟨"a@ext.com", "A"⟩, ⟨"d@ext.com", "D"⟩] none none "t1").1.ops
      = [StoreOp.delete 1, StoreOp.delete 2,
         StoreOp.create "a@ext.com", StoreOp.create "d@ext.com"]
    ∧ StoreOp.create "a@ext.com"
        ∈ (updateVisitorRecords
            ⟨[⟨1, "m1", "T", "a@ext.com", "A", none, none, "Scheduled", none, none⟩,
              ⟨2, "m1", "T", "c@ext.com", "C", none, none, "Scheduled", none, none⟩],
             3, []⟩
            "m1" "T" [⟨"a@ext.com", "A"⟩, ⟨"d@ext.com", "D"⟩] none none "t1").1.ops
    ∧ StoreOp.delete 1
        ∈ (updateVisitorRecords
            ⟨[⟨1, "m1", "T", "a@ext.com", "A", none, none, "Scheduled", none, none⟩,
              ⟨2, "m1", "T", "c@ext.com", "C", none, none, "Scheduled", none, none⟩],
             3, []⟩
            "m1" "T" [⟨"a@ext.com", "A"⟩, ⟨"d@ext.com", "D"⟩] none none "t1").1.ops := by
  refine ⟨by decide, by decide, by decide⟩

/-- Claim C2 (amended): the pass computes no set difference — it
always issues one delete per existing record of the meeting followed
by one create per wanted participant, so a participant present in
both sets is removed and recreated rather than left untouched. -/
theorem claimC2_amended (s : SPStore) (mid mtitle : String)
    (users : List ExternalUser) (st et : Option String) (now : String) :
    (updateVisitorRecords s mid mtitle users st et now).1.ops
      = s.ops
          ++ (getVisitorRecordsByMeetingId s mid).map
              (fun r => StoreOp.delete r.Id)
          ++ users.map (fun u => StoreOp.create u.emailAddress) :=
  updateVisitorRecords_ops s mid mtitle users st et now

/-- Claim C9 counterexample: a recipients-changed trigger whose
event data carries no external users leaves the store untouched — the
meeting's existing record survives instead of being deleted. -/
theorem claimC9_counterexample :
    handleOutlookEventStore
        ⟨[⟨1, "m1", "T", "c@ext.com", "C", none, none, "Scheduled", none, none⟩],
         2, []⟩
        "recipients_changed" ⟨"m1", "T", none, none, []⟩ "t1"
      = ⟨[⟨1, "m1", "T", "c@ext.com", "C", none, none, "Scheduled", none, none⟩],
         2, []⟩
    ∧ getVisitorRecordsByMeetingId
        (handleOutlookEventStore
          ⟨[⟨1, "m1", "T", "c@ext.com", "C", none, none, "Scheduled", none, none⟩],
           2, []⟩
          "recipients_changed" ⟨"m1", "T", none, none, []⟩ "t1") "m1"
      ≠ [] := by
  constructor <;> decide

/-- Claim C9 (amended): a change trigger with an empty
external-participant set performs no store operation at all (the
event pipeline drops it), and the deletion of all of a meeting's
records on an empty set happens only through the manual sync command,
which does clear them. -/
theorem claimC9_amended (s : SPStore) (eventType : String) (md : MeetingData)
    (now : String) :
    (md.externalUsers = [] → handleOutlookEventStore s eventType md now = s)
    ∧ (md.externalUsers = [] →
        getVisitorRecordsByMeetingId (manualSyncStore s md now) md.meetingId
          = []) := by
  constructor
  · intro h
    unfold handleOutlookEventStore
    simp [h]
  · intro h
    unfold manualSyncStore
    rw [if_neg (by simp [h])]
    by_cases hex : (getVisitorRecordsByMeetingId s md.meetingId).length > 0
    · rw [if_pos hex]
      exact getByMeeting_after_deleteAll s md.meetingId
    · rw [if_neg hex]
      exact List.eq_nil_of_length_eq_zero (by omega)

/-- Claim C9 witness: a concrete empty-set manual sync clears the
meeting's records, at a store that has one. -/
theorem claimC9_amended_witness :
    getVisitorRecordsByMeetingId
        (manualSyncStore
          ⟨[⟨7, "m2", "T2", "x@ext.com", "X", none, none, "Scheduled", none, none⟩],
           8, []⟩
          ⟨"m2", "T2", none, none, []⟩ "t2") "m2"
      = [] :=
  (claimC9_amended
      ⟨[⟨7, "m2", "T2", "x@ext.com", "X", none, none, "Scheduled", none, none⟩],
       8, []⟩
      "recipients_changed" ⟨"m2", "T2", none, none, []⟩ "t2").2 rfl

/-- Claim C6 counterexample: an always-failing operation under the
store client's retry configuration is attempted four times in total
(the initial attempt plus maxRetries retries), not at most the three
the claim states. -/
theorem claimC6_counterexample :
    (executeWithRetry (E := String) (A := Unit) sharePointRetryConfig
        (fun k => Except.error (toString k)) 0).2.length + 1 = 4
    ∧ ¬((executeWithRetry (E := String) (A := Unit) sharePointRetryConfig
        (fun k => Except.error (toString k)) 0).2.length + 1 ≤ 3) := by
  have h := retryAllFail_eq (A := Unit) sharePointRetryConfig toString 3 0 rfl
  rw [h]
  constructor <;> decide

/-- Claim C6 (amended): retry attempt i (0-indexed) waits
baseDelay * multiplier^i, with maxRetries 3 and multiplier 2 in both
clients, baseDelay 1000ms for the store client and 2000ms for the
notification client, and the error of the final attempt is surfaced
after exhaustion — but the operation is attempted at most
maxRetries + 1 = 4 times in total (one initial attempt plus up to
maxRetries retries), not maxRetries times. -/
theorem claimC6_amended {E A : Type} (op : Nat → Except E A) (err : Nat → E) :
    (sharePointRetryConfig.maxRetries = 3
      ∧ sharePointRetryConfig.retryDelay = 1000
      ∧ sharePointRetryConfig.backoffMultiplier = 2)
    ∧ (powerAutomateRetryConfig.maxRetries = 3
      ∧ powerAutomateRetryConfig.retryDelay = 2000
      ∧ powerAutomateRetryConfig.backoffMultiplier = 2)
    ∧ (∀ cfg : RetryConfig,
        (executeWithRetry cfg op 0).2.length + 1 ≤ cfg.maxRetries + 1)
    ∧ (∀ cfg : RetryConfig,
        executeWithRetry (A := A) cfg (fun k => Except.error (err k)) 0
          = (Except.error (err cfg.maxRetries),
             (List.range cfg.maxRetries).map
               (fun i => cfg.retryDelay * cfg.backoffMultiplier ^ i))) := by
  refine ⟨⟨rfl, rfl, rfl⟩, ⟨rfl, rfl, rfl⟩, ?_, ?_⟩
  · intro cfg
    have hle := retryDelays_length_le cfg op (cfg.maxRetries - 0) 0 rfl
    omega
  · intro cfg
    have h := retryAllFail_eq (A := A) cfg err (cfg.maxRetries - 0) 0 rfl
    rw [h]
    have hmax : max cfg.maxRetries 0 = cfg.maxRetries :=
      Nat.max_eq_left (Nat.zero_le _)
    rw [hmax, Nat.sub_zero, List.range_eq_range']

/-- Claim C6 witness: the concrete delay schedules of the two
clients on an always-failing operation, with four attempts and the
last error surfaced. -/
theorem claimC6_amended_witness :
    executeWithRetry (E := Nat) (A := Unit) sharePointRetryConfig
        (fun k => Except.error k) 0
      = (Except.error 3, [1000, 2000, 4000])
    ∧ executeWithRetry (E := Nat) (A := Unit) powerAutomateRetryConfig
        (fun k => Except.error k) 0
      = (Except.error 3, [2000, 4000, 8000]) :=
  ⟨((claimC6_amended (E := Nat) (A := Unit) (fun _ => Except.error 0)
        (fun k => k)).2.2.2 sharePointRetryConfig).trans (by rfl),
   ((claimC6_amended (E := Nat) (A := Unit) (fun _ => Except.error 0)
        (fun k => k)).2.2.2 powerAutomateRetryConfig).trans (by rfl)⟩

/-- Claim C4 witness: the sublist and multiplicity facts at a concrete
classifier run. -/
theorem claimC4_amended_witness :
    List.Sublist
      (filterExternalUsers ⟨some ⟨some ["internal.com"], some true⟩⟩
        [⟨"a@ext.com", "A"⟩, ⟨"b@internal.com", "B"⟩])
      [⟨"a@ext.com", "A"⟩, ⟨"b@internal.com", "B"⟩]
    ∧ (filterExternalUsers ⟨some ⟨some ["internal.com"], some true⟩⟩
        [⟨"a@ext.com", "A"⟩, ⟨"b@internal.com", "B"⟩]).countP
          (fun a => strToLower a.emailAddress == "a@ext.com")
      = [⟨"a@ext.com", "A"⟩, ⟨"b@internal.com", "B"⟩].countP
          (fun a => isExternalAttendee ⟨some ⟨some ["internal.com"], some true⟩⟩ a
            && (strToLower a.emailAddress == "a@ext.com")) :=
  claimC4_amended ⟨some ⟨some ["internal.com"], some true⟩⟩
    [⟨"a@ext.com", "A"⟩, ⟨"b@internal.com", "B"⟩] "a@ext.com"

/-- Claim C2 witness: the issued operation log at a concrete store
with one existing record and one wanted participant — one delete for
the existing record, one create for the wanted participant. -/
theorem claimC2_amended_witness :
    (updateVisitorRecords
        ⟨[⟨4, "m3", "T3", "p@ext.com", "P", none, none, "Scheduled", none, none⟩],
         5, []⟩
        "m3" "T3" [⟨"q@ext.com", "Q"⟩] none none "t3").1.ops
      = [StoreOp.delete 4, StoreOp.create "q@ext.com"] :=
  (claimC2_amended
      ⟨[⟨4, "m3", "T3", "p@ext.com", "P", none, none, "Scheduled", none, none⟩],
       5, []⟩
      "m3" "T3" [⟨"q@ext.com", "Q"⟩] none none "t3").trans (by decide)
